import Mathlib

/-!
Verification of the apodwall image-resolution and local-cache pipeline
(apodwall.go) against its specification.

The Go program is embedded shallowly:

* pure computations (SHA-256 cache names, `filepath.Ext`, the date sampler,
  URL construction) are Lean functions translated from the source;
* the effectful pipeline functions (`fetchAPOD`, `fetchAndCacheAPOD`,
  `fetchNASAImage`, `downloadAndCacheImage`) become Lean functions over an
  explicit environment `Env` (HTTP transport, JSON decoders, local write
  outcomes), an explicit filesystem state `FS`, and an explicit trace of
  observable events (HTTP requests issued, lines written per output channel,
  logger warnings, component invocations);
* `rand.Intn n` draws become explicit inputs, constrained by the
  hypothesis `draw < n` where a theorem needs it;
* machine integers are `Nat` (all quantities involved are small and
  non-negative; the only wraparound-sensitive arithmetic, SHA-256, reduces
  explicitly modulo `2 ^ 32` via `w32`).
-/

namespace Apodwall

/-! ## Bytes, hex, UTF-8 -/

/-- Reduce modulo `2 ^ 32`: the word size of every SHA-256 quantity. -/
def w32 (n : Nat) : Nat := n % 4294967296

/-- Right-rotation of a 32-bit word. -/
def rotr32 (x k : Nat) : Nat := w32 ((x >>> k) ||| (x <<< (32 - k)))

/-- Bitwise complement within 32 bits. -/
def not32 (x : Nat) : Nat := x ^^^ 4294967295

/-- Big-endian byte expansion of `v` to exactly `n` bytes. -/
def beBytes : Nat → Nat → List Nat
  | 0, _ => []
  | Nat.succ k, v => beBytes k (v / 256) ++ [v % 256]

/-- UTF-8 encoding of one Unicode code point, as Go produces for `[]byte(s)`. -/
def utf8Bytes (c : Nat) : List Nat :=
  if c < 0x80 then [c]
  else if c < 0x800 then [0xC0 ||| (c >>> 6), 0x80 ||| (c &&& 0x3F)]
  else if c < 0x10000 then
    [0xE0 ||| (c >>> 12), 0x80 ||| ((c >>> 6) &&& 0x3F), 0x80 ||| (c &&& 0x3F)]
  else
    [0xF0 ||| (c >>> 18), 0x80 ||| ((c >>> 12) &&& 0x3F),
     0x80 ||| ((c >>> 6) &&& 0x3F), 0x80 ||| (c &&& 0x3F)]

/-- UTF-8 bytes of a string: the Go conversion `[]byte(imageURL)`. -/
def strBytes (s : String) : List Nat :=
  (s.data.map (fun c => utf8Bytes c.toNat)).flatten

/-- Lowercase hexadecimal digit. -/
def hexDigit (n : Nat) : Char :=
  if n < 10 then Char.ofNat (48 + n) else Char.ofNat (87 + n)

/-- Two lowercase hexadecimal digits of one byte, as `fmt.Sprintf "%x"` prints it. -/
def hexByte (b : Nat) : String := String.mk [hexDigit (b / 16), hexDigit (b % 16)]

/-! ## SHA-256 (crypto/sha256.Sum256) -/

/-- SHA-256 round constants (the 64 words of the standard K table, in
decimal). -/
def sha256K : List Nat :=
  [1116352408, 1899447441, 3049323471, 3921009573, 961987163, 1508970993,
   2453635748, 2870763221, 3624381080, 310598401, 607225278, 1426881987,
   1925078388, 2162078206, 2614888103, 3248222580, 3835390401, 4022224774,
   264347078, 604807628, 770255983, 1249150122, 1555081692, 1996064986,
   2554220882, 2821834349, 2952996808, 3210313671, 3336571891, 3584528711,
   113926993, 338241895, 666307205, 773529912, 1294757372, 1396182291,
   1695183700, 1986661051, 2177026350, 2456956037, 2730485921, 2820302411,
   3259730800, 3345764771, 3516065817, 3600352804, 4094571909, 275423344,
   430227734, 506948616, 659060556, 883997877, 958139571, 1322822218,
   1537002063, 1747873779, 1955562222, 2024104815, 2227730452, 2361852424,
   2428436474, 2756734187, 3204031479, 3329325298]

/-- SHA-256 initial hash state (the 8 words of the standard H table, in
decimal). -/
def sha256H0 : List Nat :=
  [1779033703, 3144134277, 1013904242, 2773480762,
   1359893119, 2600822924, 528734635, 1541459225]

/-- SHA-256 padding: a `0x80` byte, zeros to 56 mod 64, then the bit length
in 8 big-endian bytes. -/
def padMsg (msg : List Nat) : List Nat :=
  let padZeros := (119 - msg.length % 64) % 64
  msg ++ [0x80] ++ List.replicate padZeros 0 ++ beBytes 8 (8 * msg.length)

/-- Split into 64-byte blocks; the fuel argument (the list length at the top
call) keeps the recursion structural so that the kernel can evaluate it. -/
def chunksFuel : Nat → List Nat → List (List Nat)
  | 0, _ => []
  | _, [] => []
  | Nat.succ f, b :: bs => ((b :: bs).take 64) :: chunksFuel f ((b :: bs).drop 64)

/-- Split a padded message into 64-byte blocks. -/
def chunk64 (l : List Nat) : List (List Nat) := chunksFuel l.length l

/-- Big-endian 32-bit words of one 64-byte block. -/
def words16 : List Nat → List Nat
  | b0 :: b1 :: b2 :: b3 :: rest => (((b0 * 256 + b1) * 256 + b2) * 256 + b3) :: words16 rest
  | _ => []

/-- SHA-256 small sigma 0. -/
def ssig0 (x : Nat) : Nat := rotr32 x 7 ^^^ rotr32 x 18 ^^^ (x >>> 3)

/-- SHA-256 small sigma 1. -/
def ssig1 (x : Nat) : Nat := rotr32 x 17 ^^^ rotr32 x 19 ^^^ (x >>> 10)

/-- Extend the 16 block words by `k` further message-schedule words. -/
def wExtend : List Nat → Nat → List Nat
  | ws, 0 => ws
  | ws, Nat.succ k =>
      let i := ws.length
      let v := w32 (ssig1 (ws.getD (i - 2) 0) + ws.getD (i - 7) 0 +
        ssig0 (ws.getD (i - 15) 0) + ws.getD (i - 16) 0)
      wExtend (ws ++ [v]) k

/-- The eight SHA-256 working registers. -/
structure Regs where
  a : Nat
  b : Nat
  c : Nat
  d : Nat
  e : Nat
  f : Nat
  g : Nat
  h : Nat
deriving DecidableEq

/-- One SHA-256 compression round. -/
def shaRound (st : Regs) (kw : Nat × Nat) : Regs :=
  let s1 := rotr32 st.e 6 ^^^ rotr32 st.e 11 ^^^ rotr32 st.e 25
  let ch := (st.e &&& st.f) ^^^ (not32 st.e &&& st.g)
  let t1 := w32 (st.h + s1 + ch + kw.1 + kw.2)
  let s0 := rotr32 st.a 2 ^^^ rotr32 st.a 13 ^^^ rotr32 st.a 22
  let mj := (st.a &&& st.b) ^^^ (st.a &&& st.c) ^^^ (st.b &&& st.c)
  let t2 := w32 (s0 + mj)
  ⟨w32 (t1 + t2), st.a, st.b, st.c, w32 (st.d + t1), st.e, st.f, st.g⟩

/-- SHA-256 compression of one 64-byte block into the running hash state. -/
def compress (hs : List Nat) (block : List Nat) : List Nat :=
  let ws := wExtend (words16 block) 48
  let st0 : Regs := ⟨hs.getD 0 0, hs.getD 1 0, hs.getD 2 0, hs.getD 3 0,
                     hs.getD 4 0, hs.getD 5 0, hs.getD 6 0, hs.getD 7 0⟩
  let st := (sha256K.zip ws).foldl shaRound st0
  [w32 (hs.getD 0 0 + st.a), w32 (hs.getD 1 0 + st.b), w32 (hs.getD 2 0 + st.c),
   w32 (hs.getD 3 0 + st.d), w32 (hs.getD 4 0 + st.e), w32 (hs.getD 5 0 + st.f),
   w32 (hs.getD 6 0 + st.g), w32 (hs.getD 7 0 + st.h)]

/-- SHA-256 digest (32 bytes) of a byte sequence: `sha256.Sum256`. -/
def sha256Bytes (msg : List Nat) : List Nat :=
  (((chunk64 (padMsg msg)).foldl compress sha256H0).map (beBytes 4)).flatten

/-- Lowercase hex of the first 8 digest bytes of the SHA-256 of a string:
the `fmt.Sprintf("image_%x%s", hash[:8], ext)` hash component
(apodwall.go lines 248, 255). -/
def hashHex8 (s : String) : String :=
  ((sha256Bytes (strBytes s)).take 8).foldl (fun acc b => acc ++ hexByte b) ""

/-! ## Calendar dates (time.Date / AddDate / Format "2006-01-02")

Dates are represented by their day number `z` counted from 0000-03-01 in the
proleptic Gregorian calendar, the standard era-based civil-date encoding; the
conversions below are the usual era/year-of-era arithmetic, and agree with
the conversions inside Go's `time` package on this range. -/

/-- Civil date `(y, m, d)` of day number `z`. -/
def civilFromDaysZ (z : Nat) : Nat × Nat × Nat :=
  let era := z / 146097
  let doe := z % 146097
  let yoe := (doe - doe / 1460 + doe / 36524 - doe / 146096) / 365
  let doy := doe - (365 * yoe + yoe / 4 - yoe / 100)
  let mp := (5 * doy + 2) / 153
  let d := doy - (153 * mp + 2) / 5 + 1
  let m := if mp < 10 then mp + 3 else mp - 9
  (yoe + era * 400 + (if m ≤ 2 then 1 else 0), m, d)

/-- Day number of the civil date `(y, m, d)`. -/
def daysFromCivilZ (y m d : Nat) : Nat :=
  let y2 := if m ≤ 2 then y - 1 else y
  let era := y2 / 400
  let yoe := y2 - era * 400
  let mp := if m > 2 then m - 3 else m + 9
  let doy := (153 * mp + 2) / 5 + d - 1
  let doe := yoe * 365 + yoe / 4 - yoe / 100 + doy
  era * 146097 + doe

/-- Zero-padded two-digit decimal, as the `"01"` and `"02"` layout fields pad. -/
def pad2 (n : Nat) : String := if n < 10 then "0" ++ toString n else toString n

/-- Format a day number as an ISO calendar date string:
`randomDate.Format("2006-01-02")` (apodwall.go line 124). -/
def isoDateZ (z : Nat) : String :=
  match civilFromDaysZ z with
  | (y, m, d) => toString y ++ "-" ++ pad2 m ++ "-" ++ pad2 d

/-! ## Date-range sampler (apodwall.go lines 118-124)

`startDate` is fixed at 1995-06-16 00:00:00 UTC. `time.Now()` is modelled by
`nowSec`, the whole number of seconds elapsed since that instant (positive in
every real run, and time-zone free: `Sub` is an absolute duration, and the
sampled date is formatted in UTC). `rand.Intn(daysDiff)` is modelled by the
explicit input `randomDays`, constrained by `randomDays < apodDaysDiff nowSec`
where a theorem needs it. -/

/-- Day number of the fixed APOD lower bound, 1995-06-16. -/
def apodStartZ : Nat := daysFromCivilZ 1995 6 16

/-- Line 121: `int(endDate.Sub(startDate).Hours() / 24)` — the duration in
hours is `nowSec / 3600` and the truncating division by 24 is `Nat` division. -/
def apodDaysDiff (nowSec : Nat) : Nat := nowSec / 3600 / 24

/-- Line 123: `startDate.AddDate(0, 0, randomDays)`, as a day number. -/
def randomDateZ (randomDays : Nat) : Nat := apodStartZ + randomDays

/-- Day number of the current UTC calendar date at `nowSec` seconds past the
lower bound (the lower bound is a UTC midnight, so the calendar date advances
exactly every 86400 seconds). -/
def todayZ (nowSec : Nat) : Nat := apodStartZ + nowSec / 86400

/-- Line 124: the sampled date formatted as an ISO calendar date string. -/
def isoDateOfApodDay (randomDays : Nat) : String := isoDateZ (randomDateZ randomDays)

/-! ## Data model (apodwall.go lines 37-68)

Go decodes JSON into structs whose absent fields take zero values, so every
string field is total here and "absent" is the empty string; the decoders
themselves are abstract `Env` components, since JSON text syntax plays no
role in the pipeline logic. -/

/-- The Astronomy Picture of the Day record (struct `APOD`). -/
structure APOD where
  copyright : String
  date : String
  explanation : String
  hdurl : String
  media_type : String
  title : String
  url : String
deriving DecidableEq

/-- One entry of a search item's `data` array (display-only metadata). -/
structure SearchItemData where
  nasa_id : String
  title : String
  center : String
  description : String
  date_created : String
deriving DecidableEq

/-- One item of the search response: the manifest link plus metadata. -/
structure SearchItem where
  href : String
  data : List SearchItemData
deriving DecidableEq

/-- The decoded search response (struct `NASAImageResponse`), flattened to
the two fields the code reads: `Collection.Metadata.TotalHits` and
`Collection.Items`. -/
structure SearchCollection where
  total_hits : Nat
  items : List SearchItem
deriving DecidableEq

/-- A `SearchItem` with zero values, the Go zero value of the struct. -/
def emptyItem : SearchItem := ⟨"", []⟩

/-! ## Environment, filesystem and event traces -/

/-- Outcome of one `httpClient.Get`: a transport error (`err != nil`), or a
response carrying an HTTP status code and a body. -/
inductive HttpReply where
  | failure
  | ok (status : Nat) (body : String)
deriving DecidableEq

/-- Output channels of the process. -/
inductive Channel where
  | stdout
  | stderr
deriving DecidableEq

/-- Observable events of a run: HTTP requests issued, one line written to an
output channel (`fmt.Fprintln` / `fmt.Fprintf`), a standard-logger warning
(`log.Printf`, which also targets the standard error stream), the content
cache being invoked on a URL, and the wallpaper-setter being invoked on a
path. -/
inductive Event where
  | httpGet (url : String)
  | write (ch : Channel) (line : String)
  | logWarn (line : String)
  | cacheResolve (url : String)
  | setWall (path : String)
deriving DecidableEq

/-- The local filesystem under the cache directory: an association list from
path to file contents; the most recent write for a path shadows older ones. -/
abbrev FS := List (String × String)

/-- Contents at a path, `none` when no file exists there (`os.ReadFile`
error, `os.Stat` error). -/
def fsRead (fs : FS) (path : String) : Option String := fs.lookup path

/-- The ambient collaborators of one run: the HTTP transport by URL, the
JSON decoders (`none` models a `json.Unmarshal` error), and the success of
each local-I/O or external step the code checks. -/
structure Env where
  cacheDir : String
  http : String → HttpReply
  readBodyOk : String → Bool
  copyOk : String → Bool
  parseAPOD : String → Option APOD
  parseSearch : String → Option SearchCollection
  parseManifest : String → Option (List String)
  writeFileOk : String → Bool
  createFileOk : String → Bool
  truncBody : String → String
  wallpaperOk : String → Bool

/-! ## Constants and URL construction (apodwall.go lines 19-24, 125-127, 186) -/

/-- Go constant `apodURL`. -/
def apodBaseURL : String := "https://api.nasa.gov/planetary/apod"

/-- Go constant `nasaImagesURL`. -/
def nasaImagesURL : String := "https://images-api.nasa.gov/search"

/-- Go `filepath.Join` on the clean, separator-free components the program
joins. -/
def filepathJoin (dir file : String) : String := dir ++ "/" ++ file

/-- Line 125: the APOD request URL for the sampled date. -/
def apodRequestURL (apiKey : String) (randomDays : Nat) : String :=
  apodBaseURL ++ "?api_key=" ++ apiKey ++ "&date=" ++ isoDateOfApodDay randomDays

/-- Lines 126-127: the per-date metadata cache path. -/
def apodCachePath (cacheDir : String) (randomDays : Nat) : String :=
  filepathJoin cacheDir ("apod_" ++ isoDateOfApodDay randomDays ++ ".json")

/-- Line 186: the search request URL for a query. -/
def searchRequestURL (query : String) : String :=
  nasaImagesURL ++ "?media_type=image&q=" ++ query

/-- Go `filepath.Ext` scanned from the end of the (reversed) character list:
the suffix starting at the final dot of the last path element, empty when
that element has no dot. `acc` carries the characters already passed, in
original order. -/
def extRev : List Char → List Char → String
  | [], _ => ""
  | c :: rest, acc =>
      if c = '/' then ""
      else if c = '.' then String.mk (c :: acc)
      else extRev rest (c :: acc)

/-- Go `filepath.Ext` (apodwall.go line 249). -/
def goExt (s : String) : String := extRev s.data.reverse []

/-- Lines 248-255: the content-cache filename of a source URL — a fixed
`image_` tag, the first 8 SHA-256 digest bytes in lowercase hex, and the
URL's extension, defaulting to `.jpg` when the URL has none. -/
def imageFilename (imageURL : String) : String :=
  let ext0 := goExt imageURL
  let ext := if ext0 = "" then ".jpg" else ext0
  "image_" ++ hashHex8 imageURL ++ ext

/-- Line 256: the content-cache path of a source URL. -/
def imageCachePath (cacheDir imageURL : String) : String :=
  filepathJoin cacheDir (imageFilename imageURL)

/-! ## The pipeline functions

Each returns `(result, filesystem after the call, event trace of the call)`. -/

/-- Function `downloadAndCacheImage` (apodwall.go lines 246-278): compute the
content-addressed cache path; return it at once on an existing file
(`os.Stat` hit, no network); otherwise GET the URL, failing on transport
error, on non-200 status, on `os.Create` failure, or on `io.Copy` failure —
in the last case the created file stays behind holding the bytes streamed
before the failure (`truncBody`); on success the file holds the body. -/
def downloadAndCacheImage (env : Env) (fs : FS) (imageURL : String) :
    Except String String × FS × List Event :=
  let cachePath := imageCachePath env.cacheDir imageURL
  if (fsRead fs cachePath).isSome then
    (Except.ok cachePath, fs, [Event.cacheResolve imageURL])
  else
    match env.http imageURL with
    | HttpReply.failure =>
        (Except.error "failed to download image", fs,
         [Event.cacheResolve imageURL, Event.httpGet imageURL])
    | HttpReply.ok status body =>
        if status ≠ 200 then
          (Except.error ("failed to download image, status: " ++ toString status), fs,
           [Event.cacheResolve imageURL, Event.httpGet imageURL])
        else if env.createFileOk cachePath = false then
          (Except.error "failed to create cache file", fs,
           [Event.cacheResolve imageURL, Event.httpGet imageURL])
        else if env.copyOk imageURL = false then
          (Except.error "failed to save image", (cachePath, env.truncBody imageURL) :: fs,
           [Event.cacheResolve imageURL, Event.httpGet imageURL])
        else
          (Except.ok cachePath, (cachePath, body) :: fs,
           [Event.cacheResolve imageURL, Event.httpGet imageURL])

/-- Function `setWallpaperImage` (apodwall.go lines 281-312), kept at its boundary:
an external dispatch over OS mechanisms that either succeeds or reports that
no supported mechanism worked; its outcome is an `Env` component. -/
def setWallpaperImage (env : Env) (imagePath : String) : Except String Unit :=
  if env.wallpaperOk imagePath then Except.ok ()
  else Except.error "no supported desktop environment found"

/-- Function `fetchAndCacheAPOD` (apodwall.go lines 162-182): GET the metadata URL,
failing on transport error, non-200 status, body-read failure, or JSON
decode failure; on success try to persist the raw body at the cache path,
downgrading a write failure to a logger warning and succeeding anyway. -/
def fetchAndCacheAPOD (env : Env) (fs : FS) (url cachePath : String) :
    Except String APOD × FS × List Event :=
  match env.http url with
  | HttpReply.failure => (Except.error "failed to fetch APOD", fs, [Event.httpGet url])
  | HttpReply.ok status body =>
      if status ≠ 200 then
        (Except.error ("API returned status " ++ toString status), fs, [Event.httpGet url])
      else if env.readBodyOk url = false then
        (Except.error "failed to read response", fs, [Event.httpGet url])
      else
        match env.parseAPOD body with
        | none => (Except.error "failed to parse JSON", fs, [Event.httpGet url])
        | some apod =>
            if env.writeFileOk cachePath then
              (Except.ok apod, (cachePath, body) :: fs, [Event.httpGet url])
            else
              (Except.ok apod, fs,
               [Event.httpGet url, Event.logWarn "warning: failed to cache response"])

/-- Lines 144-147: the resolved APOD image URL — the high-definition URL
when present (non-empty), else the standard URL. -/
def resolveImageURL (apod : APOD) : String :=
  if apod.hdurl ≠ "" then apod.hdurl else apod.url

/-- Error message of the non-image rejection (apodwall.go line 142). -/
def apodNotImageMsg (randomDays : Nat) (apod : APOD) : String :=
  "APOD for " ++ isoDateOfApodDay randomDays ++ " is not an image (type: " ++
    apod.media_type ++ ")"

/-- Function `fetchAPOD` (apodwall.go lines 117-159). `nowSec` models `time.Now()`
(seconds past the fixed start instant) and `randomDays` the draw
`rand.Intn(daysDiff)` of line 122. Use the per-date cache when it exists and
decodes, else fetch and cache; reject a non-image record; write the resolved
URL to the standard error stream; when `setWallpaper` is set, resolve the
image through the content cache and invoke the wallpaper-setter. -/
def fetchAPOD (env : Env) (apiKey : String) (setWallpaper : Bool)
    (nowSec randomDays : Nat) (fs : FS) : Except String Unit × FS × List Event :=
  let url := apodRequestURL apiKey randomDays
  let cachePath := apodCachePath env.cacheDir randomDays
  let fetched : Except String APOD × FS × List Event :=
    match fsRead fs cachePath with
    | some cached =>
        match env.parseAPOD cached with
        | some apod => (Except.ok apod, fs, [])
        | none => fetchAndCacheAPOD env fs url cachePath
    | none => fetchAndCacheAPOD env fs url cachePath
  match fetched with
  | (Except.error e, fs1, tr1) => (Except.error e, fs1, tr1)
  | (Except.ok apod, fs1, tr1) =>
      if apod.media_type ≠ "image" then
        (Except.error (apodNotImageMsg randomDays apod), fs1, tr1)
      else
        let imageURL := resolveImageURL apod
        let tr2 := tr1 ++ [Event.write Channel.stderr imageURL]
        if setWallpaper then
          match downloadAndCacheImage env fs1 imageURL with
          | (Except.error e, fs2, tr3) =>
              (Except.error ("failed to download image: " ++ e), fs2, tr2 ++ tr3)
          | (Except.ok imagePath, fs2, tr3) =>
              match setWallpaperImage env imagePath with
              | Except.error e =>
                  (Except.error ("failed to set wallpaper: " ++ e), fs2,
                   tr2 ++ tr3 ++ [Event.setWall imagePath])
              | Except.ok _ => (Except.ok (), fs2, tr2 ++ tr3 ++ [Event.setWall imagePath])
        else (Except.ok (), fs1, tr2)

/-- Function `fetchNASAImage` (apodwall.go lines 185-243). `randomIdx` models the
draw `rand.Intn(len(items))` of line 212. GET the search URL, failing on
transport error, non-200 status, body-read failure, or decode failure; fail
on zero total hits or an empty item list; GET the chosen item's manifest —
whose HTTP status the source never inspects — failing on transport error,
body-read failure, decode failure, or an empty manifest; write the first
manifest URL to the standard error stream; optionally cache and set the
wallpaper as in `fetchAPOD`. -/
def fetchNASAImage (env : Env) (query : String) (setWallpaper : Bool)
    (randomIdx : Nat) (fs : FS) : Except String Unit × FS × List Event :=
  let url := searchRequestURL query
  match env.http url with
  | HttpReply.failure => (Except.error "failed to fetch NASA images", fs, [Event.httpGet url])
  | HttpReply.ok status body =>
      if status ≠ 200 then
        (Except.error ("API returned status " ++ toString status), fs, [Event.httpGet url])
      else if env.readBodyOk url = false then
        (Except.error "failed to read response", fs, [Event.httpGet url])
      else
        match env.parseSearch body with
        | none => (Except.error "failed to parse JSON", fs, [Event.httpGet url])
        | some nasaResp =>
            if nasaResp.total_hits = 0 then
              (Except.error ("no images found for query: " ++ query), fs, [Event.httpGet url])
            else if nasaResp.items.length = 0 then
              (Except.error "no items in response", fs, [Event.httpGet url])
            else
              let item := nasaResp.items.getD randomIdx emptyItem
              match env.http item.href with
              | HttpReply.failure =>
                  (Except.error "failed to fetch image collection", fs,
                   [Event.httpGet url, Event.httpGet item.href])
              | HttpReply.ok _collStatus collBody =>
                  if env.readBodyOk item.href = false then
                    (Except.error "failed to read collection", fs,
                     [Event.httpGet url, Event.httpGet item.href])
                  else
                    match env.parseManifest collBody with
                    | none =>
                        (Except.error "failed to parse collection", fs,
                         [Event.httpGet url, Event.httpGet item.href])
                    | some imageURLs =>
                        match imageURLs with
                        | [] =>
                            (Except.error "no image URLs in collection", fs,
                             [Event.httpGet url, Event.httpGet item.href])
                        | imageURL :: _ =>
                            let tr2 := [Event.httpGet url, Event.httpGet item.href,
                                        Event.write Channel.stderr imageURL]
                            if setWallpaper then
                              match downloadAndCacheImage env fs imageURL with
                              | (Except.error e, fs2, tr3) =>
                                  (Except.error ("failed to download image: " ++ e), fs2,
                                   tr2 ++ tr3)
                              | (Except.ok imagePath, fs2, tr3) =>
                                  match setWallpaperImage env imagePath with
                                  | Except.error e =>
                                      (Except.error ("failed to set wallpaper: " ++ e), fs2,
                                       tr2 ++ tr3 ++ [Event.setWall imagePath])
                                  | Except.ok _ =>
                                      (Except.ok (), fs2, tr2 ++ tr3 ++ [Event.setWall imagePath])
                            else (Except.ok (), fs, tr2)

/-- The mode dispatch and error reporting of `main` (apodwall.go lines
82-96), after flag parsing and cache-directory setup: run the selected
pipeline and on failure write one descriptive line to the standard error
stream and exit nonzero. -/
def mainDispatch (env : Env) (aFlag nFlag wFlag : Bool) (apiKey query : String)
    (nowSec randomDays randomIdx : Nat) (fs : FS) : Nat × List Event :=
  if aFlag then
    match fetchAPOD env apiKey wFlag nowSec randomDays fs with
    | (Except.error e, _, tr) =>
        (1, tr ++ [Event.write Channel.stderr ("Error fetching APOD: " ++ e)])
    | (Except.ok _, _, tr) => (0, tr)
  else if nFlag then
    match fetchNASAImage env query wFlag randomIdx fs with
    | (Except.error e, _, tr) =>
        (1, tr ++ [Event.write Channel.stderr ("Error fetching NASA image: " ++ e)])
    | (Except.ok _, _, tr) => (0, tr)
  else (1, [])

end Apodwall

namespace Apodwall

/-! ## Helper facts -/

/-- Traces whose written lines all go to the standard error channel. -/
def stderrOnly (tr : List Event) : Prop :=
  ∀ ch line, Event.write ch line ∈ tr → ch = Channel.stderr

/-! ## Claim theorems -/

/-- C3: every draw `randomDays < daysDiff` lands the sampled date in
`[lowerBound, today)` — at or after the 1995-06-16 lower bound and strictly
before the current UTC calendar date — and every date strictly between the
lower bound and today is hit by some admissible draw, hence with positive
probability under the uniform `rand.Intn`. -/
theorem sampler_range (nowSec randomDays z : Nat)
    (h : randomDays < apodDaysDiff nowSec)
    (h1 : apodStartZ < z) (h2 : z < todayZ nowSec) :
    apodStartZ ≤ randomDateZ randomDays ∧
    randomDateZ randomDays < todayZ nowSec ∧
    ∃ r, r < apodDaysDiff nowSec ∧ randomDateZ r = z := by
  have hd : apodDaysDiff nowSec = nowSec / 86400 := by
    show nowSec / 3600 / 24 = nowSec / 86400
    rw [Nat.div_div_eq_div_mul]
  rw [hd] at h
  unfold randomDateZ todayZ at *
  refine ⟨Nat.le_add_right _ _, by omega, ⟨z - apodStartZ, ?_, by omega⟩⟩
  rw [hd]
  omega

/-- Witness for C3 at a concrete instant two days past the lower bound. -/
theorem sampler_range_witness :
    apodStartZ ≤ randomDateZ 1 ∧ randomDateZ 1 < todayZ 172800 ∧
    ∃ r, r < apodDaysDiff 172800 ∧ randomDateZ r = apodStartZ + 1 :=
  sampler_range 172800 1 (apodStartZ + 1) (by decide) (by decide) (by decide)

/-- Environment that resolves the APOD record `a` purely from the per-date
metadata cache: the transport always fails, so any conclusion drawn under it
is network-free. -/
def apodOnlyEnv (a : APOD) : Env :=
  ⟨"/c", fun _ => HttpReply.failure, fun _ => true, fun _ => true,
   fun _ => some a, fun _ => none, fun _ => none,
   fun _ => true, fun _ => true, fun _ => "", fun _ => true⟩

/-- Metadata cache holding a raw entry for the sampled date of draw 0. -/
def apodOnlyFS : FS := [(apodCachePath "/c" 0, "cached")]

/-- C5: an APOD record of media type "image" resolves to its high-definition
URL when that field is present (non-empty), else to its standard URL; the
resolved URL is the one written out. -/
theorem resolved_url_hd_over_standard (a : APOD) (hm : a.media_type = "image") :
    (a.hdurl ≠ "" →
      (fetchAPOD (apodOnlyEnv a) "k" false 86400 0 apodOnlyFS).2.2 =
        [Event.write Channel.stderr a.hdurl]) ∧
    (a.hdurl = "" →
      (fetchAPOD (apodOnlyEnv a) "k" false 86400 0 apodOnlyFS).2.2 =
        [Event.write Channel.stderr a.url]) := by
  constructor <;> intro hh <;>
    simp [fetchAPOD, apodOnlyEnv, apodOnlyFS, fsRead, resolveImageURL, hm, hh]

/-- Witness for C5 at the two records of the spec example: both URLs present
resolves to `https://x/h.jpg`; high-definition URL absent resolves to
`https://x/s.jpg`. -/
theorem resolved_url_hd_over_standard_witness :
    (fetchAPOD (apodOnlyEnv ⟨"", "", "", "https://x/h.jpg", "image", "", "https://x/s.jpg"⟩)
        "k" false 86400 0 apodOnlyFS).2.2 =
      [Event.write Channel.stderr "https://x/h.jpg"] ∧
    (fetchAPOD (apodOnlyEnv ⟨"", "", "", "", "image", "", "https://x/s.jpg"⟩)
        "k" false 86400 0 apodOnlyFS).2.2 =
      [Event.write Channel.stderr "https://x/s.jpg"] :=
  ⟨(resolved_url_hd_over_standard _ rfl).1 (by decide),
   (resolved_url_hd_over_standard _ rfl).2 rfl⟩

/-- C7: when the APOD metadata fetch and decode succeed but the per-date
cache write fails, the run logs a warning, keeps the filesystem unchanged,
and still succeeds, reporting the resolved URL. -/
theorem cache_write_failure_nonfatal (env : Env) (apiKey : String)
    (nowSec randomDays : Nat) (fs : FS) (body : String) (a : APOD)
    (hfs : fsRead fs (apodCachePath env.cacheDir randomDays) = none)
    (hh : env.http (apodRequestURL apiKey randomDays) = HttpReply.ok 200 body)
    (hrb : env.readBodyOk (apodRequestURL apiKey randomDays) = true)
    (hp : env.parseAPOD body = some a)
    (hw : env.writeFileOk (apodCachePath env.cacheDir randomDays) = false)
    (hm : a.media_type = "image") :
    fetchAPOD env apiKey false nowSec randomDays fs =
      (Except.ok (), fs,
       [Event.httpGet (apodRequestURL apiKey randomDays),
        Event.logWarn "warning: failed to cache response",
        Event.write Channel.stderr (resolveImageURL a)]) := by
  simp [fetchAPOD, fetchAndCacheAPOD, hfs, hh, hrb, hp, hw, hm]

/-- Environment for the C7 witness: metadata fetch succeeds, every local
cache write fails. -/
def envC7 : Env :=
  ⟨"/c",
   fun u => if u = apodRequestURL "k" 0 then HttpReply.ok 200 "rawbody" else HttpReply.failure,
   fun _ => true, fun _ => true,
   fun b => if b = "rawbody"
            then some ⟨"", "", "", "https://x/h.jpg", "image", "", "https://x/s.jpg"⟩
            else none,
   fun _ => none, fun _ => none, fun _ => false, fun _ => true, fun _ => "", fun _ => true⟩

/-- Witness for C7: a concrete run whose cache write fails still succeeds
and emits the resolved URL after the warning. -/
theorem cache_write_failure_nonfatal_witness :
    fetchAPOD envC7 "k" false 86400 0 [] =
      (Except.ok (), [],
       [Event.httpGet (apodRequestURL "k" 0),
        Event.logWarn "warning: failed to cache response",
        Event.write Channel.stderr
          (resolveImageURL ⟨"", "", "", "https://x/h.jpg", "image", "", "https://x/s.jpg"⟩)]) :=
  cache_write_failure_nonfatal envC7 "k" 86400 0 [] "rawbody" _
    rfl (by decide) rfl (by decide) rfl rfl

/-- C8: a resolved APOD record whose media type is not "image" fails the run
with the descriptive non-image error, and the trace shows no content-cache
invocation and no image request — whether the record came from the per-date
cache (first conjunct) or from a fresh fetch (second conjunct), and even
when the wallpaper flag is set. -/
theorem non_image_rejected (env : Env) (apiKey : String) (setWallpaper : Bool)
    (nowSec randomDays : Nat) (fs : FS) (raw : String) (a : APOD)
    (hm : a.media_type ≠ "image") :
    (fsRead fs (apodCachePath env.cacheDir randomDays) = some raw →
     env.parseAPOD raw = some a →
     fetchAPOD env apiKey setWallpaper nowSec randomDays fs =
       (Except.error (apodNotImageMsg randomDays a), fs, [])) ∧
    (fsRead fs (apodCachePath env.cacheDir randomDays) = none →
     env.http (apodRequestURL apiKey randomDays) = HttpReply.ok 200 raw →
     env.readBodyOk (apodRequestURL apiKey randomDays) = true →
     env.parseAPOD raw = some a →
     env.writeFileOk (apodCachePath env.cacheDir randomDays) = true →
     fetchAPOD env apiKey setWallpaper nowSec randomDays fs =
       (Except.error (apodNotImageMsg randomDays a),
        (apodCachePath env.cacheDir randomDays, raw) :: fs,
        [Event.httpGet (apodRequestURL apiKey randomDays)])) := by
  constructor
  · intro h1 h2
    simp [fetchAPOD, h1, h2, hm]
  · intro h1 h2 h3 h4 h5
    simp [fetchAPOD, fetchAndCacheAPOD, h1, h2, h3, h4, h5, hm]

/-- Environment for the C8 witness: the cached entry decodes to a record of
media type "other". -/
def envC8 : Env :=
  ⟨"/c", fun _ => HttpReply.failure, fun _ => true, fun _ => true,
   fun _ => some ⟨"", "", "", "", "other", "", "https://x/v.mp4"⟩,
   fun _ => none, fun _ => none, fun _ => true, fun _ => true, fun _ => "", fun _ => true⟩

/-- Witness for C8: a concrete media-type-"other" record fails the run with
the descriptive error and an empty trace, with the wallpaper flag set. -/
theorem non_image_rejected_witness :
    fetchAPOD envC8 "k" true 86400 0 apodOnlyFS =
      (Except.error (apodNotImageMsg 0 ⟨"", "", "", "", "other", "", "https://x/v.mp4"⟩),
       apodOnlyFS, []) :=
  (non_image_rejected envC8 "k" true 86400 0 apodOnlyFS "cached" _ (by decide)).1
    (by decide) rfl

end Apodwall

namespace Apodwall

/-- C6: a successfully fetched and decoded search response with zero total
hits, or with an empty item sequence, fails the keyword resolver while the
trace still holds only the single search request — no manifest fetch is
ever issued. -/
theorem empty_search_fails_before_manifest (env : Env) (query : String)
    (setWallpaper : Bool) (randomIdx : Nat) (fs : FS) (body : String)
    (resp : SearchCollection)
    (hh : env.http (searchRequestURL query) = HttpReply.ok 200 body)
    (hrb : env.readBodyOk (searchRequestURL query) = true)
    (hp : env.parseSearch body = some resp)
    (hz : resp.total_hits = 0 ∨ resp.items = []) :
    (∃ e, (fetchNASAImage env query setWallpaper randomIdx fs).1 = Except.error e) ∧
    (fetchNASAImage env query setWallpaper randomIdx fs).2.2 =
      [Event.httpGet (searchRequestURL query)] := by
  by_cases ht : resp.total_hits = 0
  · refine ⟨⟨"no images found for query: " ++ query, ?_⟩, ?_⟩ <;>
      simp [fetchNASAImage, hh, hrb, hp, ht]
  · rcases hz with hz | hz
    · exact absurd hz ht
    · refine ⟨⟨"no items in response", ?_⟩, ?_⟩ <;>
        simp [fetchNASAImage, hh, hrb, hp, ht, hz]

/-- Environment for the C6 witness: the search succeeds with zero hits. -/
def envC6 : Env :=
  ⟨"/c",
   fun u => if u = searchRequestURL "nebula" then HttpReply.ok 200 "searchbody"
            else HttpReply.failure,
   fun _ => true, fun _ => true, fun _ => none,
   fun b => if b = "searchbody" then some ⟨0, []⟩ else none,
   fun _ => none, fun _ => true, fun _ => true, fun _ => "", fun _ => true⟩

/-- Witness for C6: the zero-hit search run fails after exactly one HTTP
request. -/
theorem empty_search_fails_before_manifest_witness :
    (∃ e, (fetchNASAImage envC6 "nebula" false 0 []).1 = Except.error e) ∧
    (fetchNASAImage envC6 "nebula" false 0 []).2.2 =
      [Event.httpGet (searchRequestURL "nebula")] :=
  empty_search_fails_before_manifest envC6 "nebula" false 0 [] "searchbody" ⟨0, []⟩
    (by decide) rfl (by decide) (Or.inl rfl)

/-- C9: once the search succeeded with a non-empty item list and the chosen
manifest was fetched and decoded, a non-empty manifest resolves to exactly
its first URL, which is the URL written out; an empty manifest fails the
run. -/
theorem manifest_head_selected (env : Env) (query : String) (randomIdx : Nat)
    (fs : FS) (body collBody : String) (resp : SearchCollection)
    (collStatus : Nat) (urls : List String)
    (hh : env.http (searchRequestURL query) = HttpReply.ok 200 body)
    (hrb : env.readBodyOk (searchRequestURL query) = true)
    (hp : env.parseSearch body = some resp)
    (ht : resp.total_hits ≠ 0)
    (hi : randomIdx < resp.items.length)
    (hm : env.http (resp.items.getD randomIdx emptyItem).href =
      HttpReply.ok collStatus collBody)
    (hrb2 : env.readBodyOk (resp.items.getD randomIdx emptyItem).href = true)
    (hpm : env.parseManifest collBody = some urls) :
    (urls = [] →
      fetchNASAImage env query false randomIdx fs =
        (Except.error "no image URLs in collection", fs,
         [Event.httpGet (searchRequestURL query),
          Event.httpGet (resp.items.getD randomIdx emptyItem).href])) ∧
    (∀ u rest, urls = u :: rest →
      fetchNASAImage env query false randomIdx fs =
        (Except.ok (), fs,
         [Event.httpGet (searchRequestURL query),
          Event.httpGet (resp.items.getD randomIdx emptyItem).href,
          Event.write Channel.stderr u])) := by
  have hlen : resp.items.length ≠ 0 := by omega
  have hm' := hm
  have hrb2' := hrb2
  simp only [List.getD_eq_getElem?_getD] at hm' hrb2'
  constructor
  · intro hnil
    simp [fetchNASAImage, hh, hrb, hp, ht, hlen, hm', hrb2', hpm, hnil]
  · intro u rest hcons
    simp [fetchNASAImage, hh, hrb, hp, ht, hlen, hm', hrb2', hpm, hcons]

/-- Environment for the C9 witness: one search item whose manifest is the
two-element list of the spec example. -/
def envC9 : Env :=
  ⟨"/c",
   fun u => if u = searchRequestURL "sun" then HttpReply.ok 200 "searchbody"
            else if u = "https://m/collection.json" then HttpReply.ok 200 "manifestbody"
            else HttpReply.failure,
   fun _ => true, fun _ => true, fun _ => none,
   fun b => if b = "searchbody" then some ⟨2, [⟨"https://m/collection.json", []⟩]⟩ else none,
   fun b => if b = "manifestbody" then some ["https://x/a.png", "https://x/b.png"] else none,
   fun _ => true, fun _ => true, fun _ => "", fun _ => true⟩

/-- Witness for C9 at the manifest of the spec example: the resolver emits
its first URL `https://x/a.png`. -/
theorem manifest_head_selected_witness :
    fetchNASAImage envC9 "sun" false 0 [] =
      (Except.ok (), [],
       [Event.httpGet (searchRequestURL "sun"),
        Event.httpGet ((⟨2, [⟨"https://m/collection.json", []⟩]⟩ :
          SearchCollection).items.getD 0 emptyItem).href,
        Event.write Channel.stderr "https://x/a.png"]) :=
  (manifest_head_selected envC9 "sun" 0 [] "searchbody" "manifestbody"
      ⟨2, [⟨"https://m/collection.json", []⟩]⟩ 200 ["https://x/a.png", "https://x/b.png"]
      (by decide) rfl (by decide) (by decide) (by decide) (by decide) rfl
      (by decide)).2
    "https://x/a.png" ["https://x/b.png"] rfl

/-- Environment for the C2 counterexample: the search succeeds, and the
manifest response carries HTTP status 500 with a decodable body. -/
def envC2 : Env :=
  ⟨"/c",
   fun u => if u = searchRequestURL "q" then HttpReply.ok 200 "searchbody"
            else if u = "https://m" then HttpReply.ok 500 "manifestbody"
            else HttpReply.failure,
   fun _ => true, fun _ => true, fun _ => none,
   fun b => if b = "searchbody" then some ⟨1, [⟨"https://m", []⟩]⟩ else none,
   fun b => if b = "manifestbody" then some ["https://x/a.png"] else none,
   fun _ => true, fun _ => true, fun _ => "", fun _ => true⟩

/-- C2 counterexample: the manifest fetch of the keyword pipeline never
inspects the HTTP status (apodwall.go lines 215-227), so a status-500
manifest response whose body decodes is silently accepted and the whole
operation succeeds — refuting the claim that every non-success status fails
the operation. -/
theorem status_check_counterexample :
    envC2.http "https://m" = HttpReply.ok 500 "manifestbody" ∧
    fetchNASAImage envC2 "q" false 0 [] =
      (Except.ok (), [],
       [Event.httpGet (searchRequestURL "q"), Event.httpGet "https://m",
        Event.write Channel.stderr "https://x/a.png"]) := by
  constructor
  · decide
  · rfl

/-- C2 amended: of the four fetches, the APOD metadata fetch, the search
request, and the image download each fail immediately on a non-success HTTP
status with a status error; the manifest fetch alone performs no status
check (see the counterexample). -/
theorem nonsuccess_status_fails :
    (∀ (env : Env) (fs : FS) (url cachePath : String) (s : Nat) (b : String),
      env.http url = HttpReply.ok s b → s ≠ 200 →
      (fetchAndCacheAPOD env fs url cachePath).1 =
        Except.error ("API returned status " ++ toString s)) ∧
    (∀ (env : Env) (query : String) (w : Bool) (rI : Nat) (fs : FS) (s : Nat) (b : String),
      env.http (searchRequestURL query) = HttpReply.ok s b → s ≠ 200 →
      (fetchNASAImage env query w rI fs).1 =
        Except.error ("API returned status " ++ toString s)) ∧
    (∀ (env : Env) (fs : FS) (u : String) (s : Nat) (b : String),
      fsRead fs (imageCachePath env.cacheDir u) = none →
      env.http u = HttpReply.ok s b → s ≠ 200 →
      (downloadAndCacheImage env fs u).1 =
        Except.error ("failed to download image, status: " ++ toString s)) := by
  refine ⟨?_, ?_, ?_⟩
  · intro env fs url cachePath s b hh hs
    simp [fetchAndCacheAPOD, hh, hs]
  · intro env query w rI fs s b hh hs
    simp [fetchNASAImage, hh, hs]
  · intro env fs u s b hfs hh hs
    simp [downloadAndCacheImage, hfs, hh, hs]

/-- Environment for the C2 amended witness: every request yields status 500. -/
def envStatus500 : Env :=
  ⟨"/c", fun _ => HttpReply.ok 500 "b", fun _ => true, fun _ => true,
   fun _ => none, fun _ => none, fun _ => none,
   fun _ => true, fun _ => true, fun _ => "", fun _ => true⟩

/-- Witness for the C2 amendment: all three checked fetches fail on a
concrete status-500 environment. -/
theorem nonsuccess_status_fails_witness :
    (fetchAndCacheAPOD envStatus500 [] "https://u" "/c/p").1 =
      Except.error ("API returned status " ++ toString 500) ∧
    (fetchNASAImage envStatus500 "q" false 0 []).1 =
      Except.error ("API returned status " ++ toString 500) ∧
    (downloadAndCacheImage envStatus500 [] "https://u").1 =
      Except.error ("failed to download image, status: " ++ toString 500) :=
  ⟨nonsuccess_status_fails.1 envStatus500 [] "https://u" "/c/p" 500 "b" rfl (by decide),
   nonsuccess_status_fails.2.1 envStatus500 "q" false 0 [] 500 "b" rfl (by decide),
   nonsuccess_status_fails.2.2 envStatus500 [] "https://u" 500 "b" rfl rfl (by decide)⟩

end Apodwall

namespace Apodwall

/-- Helper: a successful content-cache call returns exactly the computed
content-addressed path, and leaves a file present at that path. -/
theorem download_ok_cases (env : Env) (fs : FS) (url path : String) (fs1 : FS)
    (tr1 : List Event)
    (h : downloadAndCacheImage env fs url = (Except.ok path, fs1, tr1)) :
    path = imageCachePath env.cacheDir url ∧ (fsRead fs1 path).isSome = true := by
  unfold downloadAndCacheImage at h
  by_cases hhit : (fsRead fs (imageCachePath env.cacheDir url)).isSome = true
  · rw [if_pos hhit] at h
    simp only [Prod.mk.injEq, Except.ok.injEq] at h
    obtain ⟨h1, h2, h3⟩ := h
    subst h1
    subst h2
    exact ⟨rfl, hhit⟩
  · rw [if_neg hhit] at h
    cases henv : env.http url with
    | failure =>
        rw [henv] at h
        simp at h
    | ok s b =>
        rw [henv] at h
        dsimp only at h
        by_cases hs : s ≠ 200
        · rw [if_pos hs] at h
          simp at h
        · rw [if_neg hs] at h
          by_cases hcr : env.createFileOk (imageCachePath env.cacheDir url) = false
          · rw [if_pos hcr] at h
            simp at h
          · rw [if_neg hcr] at h
            by_cases hcp : env.copyOk url = false
            · rw [if_pos hcp] at h
              simp at h
            · rw [if_neg hcp] at h
              simp only [Prod.mk.injEq, Except.ok.injEq] at h
              obtain ⟨h1, h2, h3⟩ := h
              subst h1
              subst h2
              refine ⟨rfl, ?_⟩
              simp [fsRead, List.lookup]

/-- C4: the content-cache path is the deterministic function
`imageCachePath` of the source URL alone — with extension defaulting to
`.jpg` when the URL has none — and a second resolution of the same URL
after any successful one returns the same path from the existing file, with
a trace free of HTTP requests and the filesystem unchanged. -/
theorem cache_idempotent (env : Env) (fs : FS) (url path : String) (fs1 : FS)
    (tr1 : List Event)
    (h : downloadAndCacheImage env fs url = (Except.ok path, fs1, tr1)) :
    path = imageCachePath env.cacheDir url ∧
    (goExt url = "" →
      path = filepathJoin env.cacheDir ("image_" ++ hashHex8 url ++ ".jpg")) ∧
    downloadAndCacheImage env fs1 url =
      (Except.ok path, fs1, [Event.cacheResolve url]) := by
  obtain ⟨hpath, hhit⟩ := download_ok_cases env fs url path fs1 tr1 h
  refine ⟨hpath, fun hext => ?_, ?_⟩
  · rw [hpath]
    simp [imageCachePath, imageFilename, hext]
  · have hhit' : (fsRead fs1 (imageCachePath env.cacheDir url)).isSome = true := by
      rw [← hpath]
      exact hhit
    simp [downloadAndCacheImage, hhit', hpath]

/-- Environment for the C4 witness: the image request succeeds and local
writes work. -/
def envC4 : Env :=
  ⟨"/c", fun _ => HttpReply.ok 200 "img", fun _ => true, fun _ => true,
   fun _ => none, fun _ => none, fun _ => none,
   fun _ => true, fun _ => true, fun _ => "", fun _ => true⟩

set_option maxRecDepth 1000000 in
/-- Witness for C4 at the extension-free URL `https://x/a`: the first call
populates the cache, the path carries the `.jpg` default, and the second
call returns the same path with a network-free trace. -/
theorem cache_idempotent_witness :
    imageCachePath "/c" "https://x/a" = imageCachePath "/c" "https://x/a" ∧
    (goExt "https://x/a" = "" →
      imageCachePath "/c" "https://x/a" =
        filepathJoin "/c" ("image_" ++ hashHex8 "https://x/a" ++ ".jpg")) ∧
    downloadAndCacheImage envC4 [(imageCachePath "/c" "https://x/a", "img")] "https://x/a" =
      (Except.ok (imageCachePath "/c" "https://x/a"),
       [(imageCachePath "/c" "https://x/a", "img")],
       [Event.cacheResolve "https://x/a"]) :=
  cache_idempotent envC4 [] "https://x/a" (imageCachePath "/c" "https://x/a")
    [(imageCachePath "/c" "https://x/a", "img")]
    [Event.cacheResolve "https://x/a", Event.httpGet "https://x/a"] rfl

/-- C10: when `io.Copy` fails after `os.Create` made the cache file, the
call errors but leaves the truncated file at the computed path, and the next
resolution of the same URL returns that path as a successful cache hit with
no HTTP request in its trace. -/
theorem truncated_file_poisons_cache (env : Env) (fs : FS) (url body : String)
    (hmiss : fsRead fs (imageCachePath env.cacheDir url) = none)
    (hh : env.http url = HttpReply.ok 200 body)
    (hcr : env.createFileOk (imageCachePath env.cacheDir url) = true)
    (hcp : env.copyOk url = false) :
    downloadAndCacheImage env fs url =
      (Except.error "failed to save image",
       (imageCachePath env.cacheDir url, env.truncBody url) :: fs,
       [Event.cacheResolve url, Event.httpGet url]) ∧
    downloadAndCacheImage env
        ((imageCachePath env.cacheDir url, env.truncBody url) :: fs) url =
      (Except.ok (imageCachePath env.cacheDir url),
       (imageCachePath env.cacheDir url, env.truncBody url) :: fs,
       [Event.cacheResolve url]) := by
  constructor
  · simp [downloadAndCacheImage, hmiss, hh, hcr, hcp]
  · simp [downloadAndCacheImage, fsRead, List.lookup]

/-- Environment for the C10 witness: download succeeds over the wire but the
streaming copy to disk fails, leaving the partial bytes `trunc`. -/
def envC10 : Env :=
  ⟨"/c", fun _ => HttpReply.ok 200 "img", fun _ => true, fun _ => false,
   fun _ => none, fun _ => none, fun _ => none,
   fun _ => true, fun _ => true, fun _ => "trunc", fun _ => true⟩

set_option maxRecDepth 1000000 in
/-- Witness for C10 at a concrete URL: the failed copy leaves the file, and
the retry silently serves it. -/
theorem truncated_file_poisons_cache_witness :
    downloadAndCacheImage envC10 [] "https://x/a.png" =
      (Except.error "failed to save image",
       (imageCachePath "/c" "https://x/a.png", "trunc") :: [],
       [Event.cacheResolve "https://x/a.png", Event.httpGet "https://x/a.png"]) ∧
    downloadAndCacheImage envC10 [(imageCachePath "/c" "https://x/a.png", "trunc")]
        "https://x/a.png" =
      (Except.ok (imageCachePath "/c" "https://x/a.png"),
       [(imageCachePath "/c" "https://x/a.png", "trunc")],
       [Event.cacheResolve "https://x/a.png"]) :=
  truncated_file_poisons_cache envC10 [] "https://x/a.png" "img" rfl rfl rfl rfl

end Apodwall

namespace Apodwall

/-- Helper: the content cache never writes to an output channel. -/
theorem write_notin_download (env : Env) (fs : FS) (url : String)
    (ch : Channel) (line : String) :
    Event.write ch line ∉ (downloadAndCacheImage env fs url).2.2 := by
  unfold downloadAndCacheImage
  by_cases hhit : (fsRead fs (imageCachePath env.cacheDir url)).isSome = true
  · rw [if_pos hhit]
    simp
  · rw [if_neg hhit]
    cases env.http url with
    | failure => simp
    | ok s b =>
        dsimp only
        by_cases hs : s ≠ 200
        · rw [if_pos hs]
          simp
        · rw [if_neg hs]
          by_cases hcr : env.createFileOk (imageCachePath env.cacheDir url) = false
          · rw [if_pos hcr]
            simp
          · rw [if_neg hcr]
            by_cases hcp : env.copyOk url = false
            · rw [if_pos hcp]
              simp
            · rw [if_neg hcp]
              simp

/-- Helper: the metadata fetch-and-cache step never writes to an output
channel (its warning goes through the logger event). -/
theorem write_notin_fetchAndCache (env : Env) (fs : FS) (url cachePath : String)
    (ch : Channel) (line : String) :
    Event.write ch line ∉ (fetchAndCacheAPOD env fs url cachePath).2.2 := by
  unfold fetchAndCacheAPOD
  cases env.http url with
  | failure => simp
  | ok s b =>
      dsimp only
      by_cases hs : s ≠ 200
      · rw [if_pos hs]
        simp
      · rw [if_neg hs]
        by_cases hrb : env.readBodyOk url = false
        · rw [if_pos hrb]
          simp
        · rw [if_neg hrb]
          cases env.parseAPOD b with
          | none => simp
          | some apod =>
              dsimp only
              by_cases hw : env.writeFileOk cachePath = true
              · rw [if_pos hw]
                simp
              · rw [if_neg hw]
                simp

/-- Helper: every output-channel write of the APOD pipeline goes to the
standard error channel. -/
theorem write_in_fetchAPOD_stderr (env : Env) (apiKey : String) (w : Bool)
    (nowSec randomDays : Nat) (fs : FS) (ch : Channel) (line : String)
    (hmem : Event.write ch line ∈ (fetchAPOD env apiKey w nowSec randomDays fs).2.2) :
    ch = Channel.stderr := by
  unfold fetchAPOD at hmem
  dsimp only at hmem
  cases hfs : fsRead fs (apodCachePath env.cacheDir randomDays) with
  | some cached =>
      rw [hfs] at hmem
      dsimp only at hmem
      cases hp : env.parseAPOD cached with
      | some apod =>
          rw [hp] at hmem
          dsimp only at hmem
          by_cases hm : apod.media_type ≠ "image"
          · rw [if_pos hm] at hmem
            simp at hmem
          · rw [if_neg hm] at hmem
            by_cases hw : w = true
            · rw [if_pos hw] at hmem
              rcases hdl : downloadAndCacheImage env fs (resolveImageURL apod) with ⟨r, fs2, tr3⟩
              rw [hdl] at hmem
              have hnd := write_notin_download env fs (resolveImageURL apod) ch line
              rw [hdl] at hnd
              cases r with
              | error e =>
                  dsimp only at hmem
                  simp at hmem
                  rcases hmem with ⟨h1, _⟩ | hmem
                  · exact h1
                  · exact absurd hmem hnd
              | ok imagePath =>
                  dsimp only at hmem
                  cases hsw : setWallpaperImage env imagePath with
                  | error e =>
                      rw [hsw] at hmem
                      dsimp only at hmem
                      simp at hmem
                      rcases hmem with ⟨h1, _⟩ | hmem
                      · exact h1
                      · exact absurd hmem hnd
                  | ok u =>
                      rw [hsw] at hmem
                      dsimp only at hmem
                      simp at hmem
                      rcases hmem with ⟨h1, _⟩ | hmem
                      · exact h1
                      · exact absurd hmem hnd
            · rw [if_neg hw] at hmem
              simp at hmem
              exact hmem.1
      | none =>
          rw [hp] at hmem
          dsimp only at hmem
          rcases hfc : fetchAndCacheAPOD env fs (apodRequestURL apiKey randomDays)
              (apodCachePath env.cacheDir randomDays) with ⟨r, fs1, tr1⟩
          rw [hfc] at hmem
          have hnf := write_notin_fetchAndCache env fs (apodRequestURL apiKey randomDays)
            (apodCachePath env.cacheDir randomDays) ch line
          rw [hfc] at hnf
          cases r with
          | error e =>
              dsimp only at hmem
              exact absurd hmem hnf
          | ok apod =>
              dsimp only at hmem
              by_cases hm : apod.media_type ≠ "image"
              · rw [if_pos hm] at hmem
                exact absurd hmem hnf
              · rw [if_neg hm] at hmem
                by_cases hw : w = true
                · rw [if_pos hw] at hmem
                  rcases hdl : downloadAndCacheImage env fs1 (resolveImageURL apod) with ⟨r2, fs2, tr3⟩
                  rw [hdl] at hmem
                  have hnd := write_notin_download env fs1 (resolveImageURL apod) ch line
                  rw [hdl] at hnd
                  cases r2 with
                  | error e =>
                      dsimp only at hmem
                      simp at hmem
                      rcases hmem with hmem | ⟨h1, _⟩ | hmem
                      · exact absurd hmem hnf
                      · exact h1
                      · exact absurd hmem hnd
                  | ok imagePath =>
                      dsimp only at hmem
                      cases hsw : setWallpaperImage env imagePath with
                      | error e =>
                          rw [hsw] at hmem
                          dsimp only at hmem
                          simp at hmem
                          rcases hmem with hmem | ⟨h1, _⟩ | hmem
                          · exact absurd hmem hnf
                          · exact h1
                          · exact absurd hmem hnd
                      | ok u =>
                          rw [hsw] at hmem
                          dsimp only at hmem
                          simp at hmem
                          rcases hmem with hmem | ⟨h1, _⟩ | hmem
                          · exact absurd hmem hnf
                          · exact h1
                          · exact absurd hmem hnd
                · rw [if_neg hw] at hmem
                  simp at hmem
                  rcases hmem with hmem | ⟨h1, _⟩
                  · exact absurd hmem hnf
                  · exact h1
  | none =>
      rw [hfs] at hmem
      dsimp only at hmem
      rcases hfc : fetchAndCacheAPOD env fs (apodRequestURL apiKey randomDays)
          (apodCachePath env.cacheDir randomDays) with ⟨r, fs1, tr1⟩
      rw [hfc] at hmem
      have hnf := write_notin_fetchAndCache env fs (apodRequestURL apiKey randomDays)
        (apodCachePath env.cacheDir randomDays) ch line
      rw [hfc] at hnf
      cases r with
      | error e =>
          dsimp only at hmem
          exact absurd hmem hnf
      | ok apod =>
          dsimp only at hmem
          by_cases hm : apod.media_type ≠ "image"
          · rw [if_pos hm] at hmem
            exact absurd hmem hnf
          · rw [if_neg hm] at hmem
            by_cases hw : w = true
            · rw [if_pos hw] at hmem
              rcases hdl : downloadAndCacheImage env fs1 (resolveImageURL apod) with ⟨r2, fs2, tr3⟩
              rw [hdl] at hmem
              have hnd := write_notin_download env fs1 (resolveImageURL apod) ch line
              rw [hdl] at hnd
              cases r2 with
              | error e =>
                  dsimp only at hmem
                  simp at hmem
                  rcases hmem with hmem | ⟨h1, _⟩ | hmem
                  · exact absurd hmem hnf
                  · exact h1
                  · exact absurd hmem hnd
              | ok imagePath =>
                  dsimp only at hmem
                  cases hsw : setWallpaperImage env imagePath with
                  | error e =>
                      rw [hsw] at hmem
                      dsimp only at hmem
                      simp at hmem
                      rcases hmem with hmem | ⟨h1, _⟩ | hmem
                      · exact absurd hmem hnf
                      · exact h1
                      · exact absurd hmem hnd
                  | ok u =>
                      rw [hsw] at hmem
                      dsimp only at hmem
                      simp at hmem
                      rcases hmem with hmem | ⟨h1, _⟩ | hmem
                      · exact absurd hmem hnf
                      · exact h1
                      · exact absurd hmem hnd
            · rw [if_neg hw] at hmem
              simp at hmem
              rcases hmem with hmem | ⟨h1, _⟩
              · exact absurd hmem hnf
              · exact h1

end Apodwall

namespace Apodwall

/-- Helper: every output-channel write of the keyword pipeline goes to the
standard error channel. -/
theorem write_in_fetchNASA_stderr (env : Env) (query : String) (w : Bool)
    (randomIdx : Nat) (fs : FS) (ch : Channel) (line : String)
    (hmem : Event.write ch line ∈ (fetchNASAImage env query w randomIdx fs).2.2) :
    ch = Channel.stderr := by
  unfold fetchNASAImage at hmem
  dsimp only at hmem
  cases henv : env.http (searchRequestURL query) with
  | failure =>
      rw [henv] at hmem
      simp at hmem
  | ok s b =>
      rw [henv] at hmem
      dsimp only at hmem
      by_cases hs : s ≠ 200
      · rw [if_pos hs] at hmem
        simp at hmem
      · rw [if_neg hs] at hmem
        by_cases hrb : env.readBodyOk (searchRequestURL query) = false
        · rw [if_pos hrb] at hmem
          simp at hmem
        · rw [if_neg hrb] at hmem
          cases hp : env.parseSearch b with
          | none =>
              rw [hp] at hmem
              simp at hmem
          | some resp =>
              rw [hp] at hmem
              dsimp only at hmem
              by_cases ht : resp.total_hits = 0
              · rw [if_pos ht] at hmem
                simp at hmem
              · rw [if_neg ht] at hmem
                by_cases hl : resp.items.length = 0
                · rw [if_pos hl] at hmem
                  simp at hmem
                · rw [if_neg hl] at hmem
                  cases hm : env.http (resp.items.getD randomIdx emptyItem).href with
                  | failure =>
                      rw [hm] at hmem
                      simp at hmem
                  | ok cs cb =>
                      rw [hm] at hmem
                      dsimp only at hmem
                      by_cases hrb2 : env.readBodyOk (resp.items.getD randomIdx emptyItem).href = false
                      · rw [if_pos hrb2] at hmem
                        simp at hmem
                      · rw [if_neg hrb2] at hmem
                        cases hpm : env.parseManifest cb with
                        | none =>
                            rw [hpm] at hmem
                            simp at hmem
                        | some urls =>
                            rw [hpm] at hmem
                            dsimp only at hmem
                            cases urls with
                            | nil => simp at hmem
                            | cons u rest =>
                                dsimp only at hmem
                                by_cases hw : w = true
                                · rw [if_pos hw] at hmem
                                  rcases hdl : downloadAndCacheImage env fs u with ⟨r, fs2, tr3⟩
                                  rw [hdl] at hmem
                                  have hnd := write_notin_download env fs u ch line
                                  rw [hdl] at hnd
                                  cases r with
                                  | error e =>
                                      dsimp only at hmem
                                      simp at hmem
                                      rcases hmem with ⟨h1, _⟩ | hmem
                                      · exact h1
                                      · exact absurd hmem hnd
                                  | ok imagePath =>
                                      dsimp only at hmem
                                      cases hsw : setWallpaperImage env imagePath with
                                      | error e =>
                                          rw [hsw] at hmem
                                          dsimp only at hmem
                                          simp at hmem
                                          rcases hmem with ⟨h1, _⟩ | hmem
                                          · exact h1
                                          · exact absurd hmem hnd
                                      | ok uu =>
                                          rw [hsw] at hmem
                                          dsimp only at hmem
                                          simp at hmem
                                          rcases hmem with ⟨h1, _⟩ | hmem
                                          · exact h1
                                          · exact absurd hmem hnd
                                · rw [if_neg hw] at hmem
                                  simp at hmem
                                  exact hmem.1

/-- Record for the C1 counterexample: an image APOD with both URLs. -/
def apodC1 : APOD := ⟨"", "", "", "https://x/h.jpg", "image", "", "https://x/s.jpg"⟩

/-- Environment for the C1 counterexample failing run: the transport is
down, so the APOD pipeline fails and main reports the error. -/
def envC1f : Env :=
  ⟨"/c", fun _ => HttpReply.failure, fun _ => true, fun _ => true,
   fun _ => none, fun _ => none, fun _ => none,
   fun _ => true, fun _ => true, fun _ => "", fun _ => true⟩

/-- C1 counterexample: in a successful APOD resolution the resolved URL is
written to the standard error channel and the whole trace holds no other
write — in particular none on a channel distinct from standard error —
while the error report of a failing run goes to that same standard error
channel (third conjunct). The resolved URL therefore does not go to an
output channel distinct from the channel used for error messages. -/
theorem url_channel_counterexample :
    (fetchAPOD (apodOnlyEnv apodC1) "k" false 86400 0 apodOnlyFS).1 = Except.ok () ∧
    (fetchAPOD (apodOnlyEnv apodC1) "k" false 86400 0 apodOnlyFS).2.2 =
      [Event.write Channel.stderr "https://x/h.jpg"] ∧
    mainDispatch envC1f true false false "k" "q" 86400 0 0 [] =
      (1, [Event.httpGet (apodRequestURL "k" 0),
           Event.write Channel.stderr "Error fetching APOD: failed to fetch APOD"]) := by
  refine ⟨rfl, rfl, rfl⟩

/-- C1 amended: both pipelines write the resolved URL to the standard error
stream, the same channel `main` uses for its error reports; every line any
run ever writes to an output channel — URL or diagnostic — lands on the
standard error channel, so no distinct output channel separates the URL
from diagnostics. -/
theorem url_and_errors_share_stderr (env : Env) (aFlag nFlag wFlag : Bool)
    (apiKey query : String) (nowSec randomDays randomIdx : Nat) (fs : FS)
    (ch : Channel) (line : String)
    (hmem : Event.write ch line ∈
      (mainDispatch env aFlag nFlag wFlag apiKey query nowSec randomDays randomIdx fs).2) :
    ch = Channel.stderr := by
  unfold mainDispatch at hmem
  by_cases ha : aFlag = true
  · rw [if_pos ha] at hmem
    rcases hr : fetchAPOD env apiKey wFlag nowSec randomDays fs with ⟨r, fs1, tr⟩
    rw [hr] at hmem
    have hin : ∀ h2 : Event.write ch line ∈ tr, ch = Channel.stderr := by
      intro h2
      apply write_in_fetchAPOD_stderr env apiKey wFlag nowSec randomDays fs ch line
      rw [hr]
      exact h2
    cases r with
    | error e =>
        dsimp only at hmem
        simp at hmem
        rcases hmem with hmem | ⟨h1, _⟩
        · exact hin hmem
        · exact h1
    | ok u =>
        dsimp only at hmem
        exact hin hmem
  · rw [if_neg ha] at hmem
    by_cases hn : nFlag = true
    · rw [if_pos hn] at hmem
      rcases hr : fetchNASAImage env query wFlag randomIdx fs with ⟨r, fs1, tr⟩
      rw [hr] at hmem
      have hin : ∀ h2 : Event.write ch line ∈ tr, ch = Channel.stderr := by
        intro h2
        apply write_in_fetchNASA_stderr env query wFlag randomIdx fs ch line
        rw [hr]
        exact h2
      cases r with
      | error e =>
          dsimp only at hmem
          simp at hmem
          rcases hmem with hmem | ⟨h1, _⟩
          · exact hin hmem
          · exact h1
      | ok u =>
          dsimp only at hmem
          exact hin hmem
    · rw [if_neg hn] at hmem
      simp at hmem

/-- Witness for the C1 amendment: the URL write of the concrete successful
run of the counterexample environment is on the standard error channel. -/
theorem url_and_errors_share_stderr_witness : Channel.stderr = Channel.stderr :=
  url_and_errors_share_stderr (apodOnlyEnv apodC1) true false false "k" "q" 86400 0 0
    apodOnlyFS Channel.stderr "https://x/h.jpg" (by decide)

end Apodwall
